import Mathlib

/-!
Verification of the media-service upload lifecycle engine.

Shallow embedding of the repository's core logic:
* `MediaSpec.FileValidator` — the content-signature validator
  (`src/media/utils/file-validator.ts`): the static signature table,
  `validateFileContent` and `detectMimeType`, with byte buffers as `List ℕ`.
* `MediaSpec.Service` — the upload lifecycle engine
  (`src/media/services/media.service.ts`): `validateUploadRequest`,
  `validateUploadedFile`, `initiateUpload`, `completeUpload`, `deleteFile`,
  `updateFile` and the pagination computation of `searchFiles`, with the two
  external collaborators (object storage, metadata repository) modelled by
  explicit result parameters and an event trace recording every side effect
  in call order.

JavaScript numbers are embedded as `ℚ` (sizes) and `ℤ` (pagination
arithmetic); timestamps as `ℕ`; fallible collaborator calls as `Except`.
-/

namespace MediaSpec

/-- Status values of a media record (`MediaStatusEnum` in
`common/types/media.types`): `pending | uploaded | validated | invalid |
failed`, stored as lowercase strings in the code. -/
inductive MediaStatus
  | pending
  | uploaded
  | validated
  | invalid
  | failed
deriving DecidableEq, Repr

/-- The error hierarchy of `common/errors/application-error`, collapsed to the
four kinds the engine raises. -/
inductive AppError
  | validationError (msg : String)
  | notFoundError (msg : String)
  | storageError (msg : String)
  | databaseError (msg : String)
deriving DecidableEq, Repr

deriving instance DecidableEq for Except

/-- A storage-collaborator failure (the engine only ever inspects that it is a
failure, never its payload). -/
abbrev StorageFailure := String

/-- A metadata-repository failure. -/
abbrev DbFailure := String

namespace FileValidator

/-- One entry of the signature table: `interface FileSignature` in
`file-validator.ts` (`offset` defaults to 0). -/
structure FileSignature where
  mimeType : String
  signature : List ℕ
  offset : ℕ := 0
deriving DecidableEq, Repr

/-- The static table `FILE_SIGNATURES` of `file-validator.ts`, in its declared
order. -/
def FILE_SIGNATURES : List FileSignature := [
  { mimeType := "image/jpeg", signature := [0xFF, 0xD8, 0xFF] },
  { mimeType := "image/png", signature := [0x89, 0x50, 0x4E, 0x47, 0x0D, 0x0A, 0x1A, 0x0A] },
  { mimeType := "image/gif", signature := [0x47, 0x49, 0x46, 0x38] },
  { mimeType := "image/webp", signature := [0x52, 0x49, 0x46, 0x46] },
  { mimeType := "application/pdf", signature := [0x25, 0x50, 0x44, 0x46] },
  { mimeType := "application/msword", signature := [0xD0, 0xCF, 0x11, 0xE0, 0xA1, 0xB1, 0x1A, 0xE1] },
  { mimeType := "application/vnd.openxmlformats-officedocument", signature := [0x50, 0x4B, 0x03, 0x04] },
  { mimeType := "audio/mpeg", signature := [0x49, 0x44, 0x33] },
  { mimeType := "video/mp4", signature := [0x00, 0x00, 0x00, 0x18, 0x66, 0x74, 0x79, 0x70], offset := 4 },
  { mimeType := "application/zip", signature := [0x50, 0x4B, 0x03, 0x04] },
  { mimeType := "application/x-rar-compressed", signature := [0x52, 0x61, 0x72, 0x21, 0x1A, 0x07] }
]

/-- The inner byte-comparison loop of `validateFileContent`/`detectMimeType`:
compares the signature bytes against the buffer bytes position by position,
stopping at the first mismatch. -/
def sigBytesMatch : List ℕ → List ℕ → Bool
  | [], _ => true
  | _ :: _, [] => false
  | s :: ss, b :: bs => s == b && sigBytesMatch ss bs

/-- One iteration of the signature loop: the `buffer.length < offset +
signature.length` guard (`continue` counts the entry as a non-match), then the
byte comparison at the entry's offset. -/
def signatureMatchesAt (buffer : List ℕ) (sig : FileSignature) : Bool :=
  decide (sig.offset + sig.signature.length ≤ buffer.length)
    && sigBytesMatch sig.signature (buffer.drop sig.offset)

/-- `validateFileContent(buffer, claimedMimeType)` of `file-validator.ts`.
Buffers shorter than 8 bytes fail closed; a claimed type selecting no table
entry passes by default; otherwise any selected entry may match. -/
def validateFileContent (buffer : List ℕ) (claimedMimeType : String) : Bool :=
  if buffer.length < 8 then false
  else
    let expectedSignatures :=
      FILE_SIGNATURES.filter (fun s => claimedMimeType.startsWith s.mimeType)
    if expectedSignatures.isEmpty then true
    else expectedSignatures.any (fun s => signatureMatchesAt buffer s)

/-- `detectMimeType(buffer)` of `file-validator.ts`: first table entry (in
declared order) whose signature matches. -/
def detectMimeType (buffer : List ℕ) : Option String :=
  if buffer.length < 8 then none
  else (FILE_SIGNATURES.find? (fun s => signatureMatchesAt buffer s)).map FileSignature.mimeType

/-- Bridge: the byte-comparison loop succeeds exactly when the signature is a
prefix of the remaining buffer. -/
theorem sigBytesMatch_iff (sig buf : List ℕ) :
    sigBytesMatch sig buf = true ↔ sig <+: buf := by
  induction sig generalizing buf with
  | nil => exact iff_of_true rfl List.nil_prefix
  | cons s ss ih =>
    cases buf with
    | nil =>
      exact iff_of_false (fun h => Bool.noConfusion h)
        (fun h => by simpa using h.length_le)
    | cons b bs =>
      rw [show sigBytesMatch (s :: ss) (b :: bs) = (s == b && sigBytesMatch ss bs) from rfl,
        Bool.and_eq_true, beq_iff_eq, ih, List.cons_prefix_cons]

/-- Bridge: one signature-loop iteration succeeds exactly when the buffer is
long enough and the signature bytes equal the buffer contents at the entry's
offset. -/
theorem signatureMatchesAt_iff (buffer : List ℕ) (sig : FileSignature) :
    signatureMatchesAt buffer sig = true ↔
      sig.offset + sig.signature.length ≤ buffer.length
        ∧ sig.signature <+: buffer.drop sig.offset := by
  simp [signatureMatchesAt, sigBytesMatch_iff]

/-- C4: `validateFileContent` returns false for every buffer of fewer than 8
bytes; for buffers of at least 8 bytes it returns true when no table entry's
MIME prefix is a prefix of the claimed type, and otherwise returns true iff
some selected entry's signature bytes equal the buffer contents at that
entry's offset (with the buffer long enough to hold them there). -/
theorem validateFileContent_spec (buffer : List ℕ) (claimed : String) :
    (buffer.length < 8 → validateFileContent buffer claimed = false)
    ∧ (8 ≤ buffer.length →
        ((∀ s ∈ FILE_SIGNATURES, claimed.startsWith s.mimeType = false) →
          validateFileContent buffer claimed = true)
        ∧ ((∃ s ∈ FILE_SIGNATURES, claimed.startsWith s.mimeType = true) →
          (validateFileContent buffer claimed = true ↔
            ∃ s ∈ FILE_SIGNATURES, claimed.startsWith s.mimeType = true
              ∧ s.offset + s.signature.length ≤ buffer.length
              ∧ s.signature <+: buffer.drop s.offset))) := by
  refine ⟨fun h => by simp [validateFileContent, h], fun h8 => ⟨?_, ?_⟩⟩
  · intro hnone
    have hnil : FILE_SIGNATURES.filter (fun s => claimed.startsWith s.mimeType) = [] := by
      rw [List.filter_eq_nil_iff]
      intro s hs
      simp [hnone s hs]
    simp [validateFileContent, Nat.not_lt.mpr h8, hnil]
  · rintro ⟨s, hs, hpre⟩
    have hne : (FILE_SIGNATURES.filter (fun s => claimed.startsWith s.mimeType)).isEmpty = false := by
      rw [List.isEmpty_eq_false]
      intro hnil
      have := List.filter_eq_nil_iff.mp hnil s hs
      simp [hpre] at this
    simp only [validateFileContent, Nat.not_lt.mpr h8, if_false, hne, Bool.false_eq_true,
      ite_false, List.any_eq_true, List.mem_filter]
    constructor
    · rintro ⟨t, ⟨ht, htpre⟩, hmatch⟩
      exact ⟨t, ht, htpre, (signatureMatchesAt_iff buffer t).mp hmatch⟩
    · rintro ⟨t, ht, htpre, hlen, hbytes⟩
      exact ⟨t, ⟨ht, htpre⟩, (signatureMatchesAt_iff buffer t).mpr ⟨hlen, hbytes⟩⟩

/-- C5: on every buffer of at least 8 bytes that begins with the ZIP family
signature `50 4B 03 04`, `detectMimeType` returns
`application/vnd.openxmlformats-officedocument` — the earlier table entry —
even though the later `application/zip` entry carries the identical signature
and also matches; it never returns `application/zip` for such a buffer. -/
theorem detectMimeType_zip_family_order (b4 b5 b6 b7 : ℕ) (rest : List ℕ) :
    detectMimeType (0x50 :: 0x4B :: 0x03 :: 0x04 :: b4 :: b5 :: b6 :: b7 :: rest)
        = some "application/vnd.openxmlformats-officedocument"
    ∧ signatureMatchesAt (0x50 :: 0x4B :: 0x03 :: 0x04 :: b4 :: b5 :: b6 :: b7 :: rest)
        { mimeType := "application/zip", signature := [0x50, 0x4B, 0x03, 0x04] } = true
    ∧ detectMimeType (0x50 :: 0x4B :: 0x03 :: 0x04 :: b4 :: b5 :: b6 :: b7 :: rest)
        ≠ some "application/zip" := by
  have h1 : detectMimeType (0x50 :: 0x4B :: 0x03 :: 0x04 :: b4 :: b5 :: b6 :: b7 :: rest)
      = some "application/vnd.openxmlformats-officedocument" := by
    simp [detectMimeType, FILE_SIGNATURES, signatureMatchesAt, sigBytesMatch, List.find?]
  exact ⟨h1, rfl, by rw [h1]; decide⟩

end FileValidator

/-- `UploadRequestDto` (`media/dto/upload.dto.ts`): the client's declared
attributes. Sizes are JavaScript numbers, embedded as `ℚ`. -/
structure UploadRequestDto where
  fileName : String
  mimeType : String
  size : ℚ
deriving DecidableEq, Repr

/-- `StorageUploadResponse` (`storage/interfaces/storage.interface.ts`). -/
structure StorageUploadResponse where
  uploadId : String
  url : String
  expires : ℤ
deriving DecidableEq, Repr

/-- `UploadResponseDto` (`media/dto/upload.dto.ts`). -/
structure UploadResponseDto where
  uploadId : String
  url : String
  expires : ℤ
deriving DecidableEq, Repr

/-- `MediaEntity` (`database/interfaces/entity.interface.ts`); `createdAt`,
`updatedAt` and `uploadedAt` are optional, timestamps are `ℕ`. -/
structure MediaEntity where
  id : String
  originalName : String
  mimeType : String
  size : ℚ
  status : MediaStatus
  key : String
  bucket : String
  createdAt : Option ℕ := none
  updatedAt : Option ℕ := none
  uploadedAt : Option ℕ := none
deriving DecidableEq, Repr

/-- `StorageFileMetadata` (`storage/interfaces/storage.interface.ts`): the
storage collaborator's read-only view of a stored object. -/
structure StorageFileMetadata where
  id : String
  originalName : String
  mimeType : String
  size : ℚ
  key : String
  bucket : String
  uploadedAt : Option ℕ := none
  status : MediaStatus
deriving DecidableEq, Repr

/-- `FileMetadataDto` (`media/dto/upload.dto.ts`). -/
structure FileMetadataDto where
  id : String
  originalName : String
  mimeType : String
  size : ℚ
  status : MediaStatus
  uploadedAt : Option ℕ := none
  url : Option String := none
deriving DecidableEq, Repr

namespace MediaMapper

/-- `MediaMapper.toMediaEntity` (`media/mappers/media.mapper.ts`): a fresh
`pending` entity with `createdAt` and `updatedAt` set to the current time. -/
def toMediaEntity (dto : UploadRequestDto) (id : String) (now : ℕ) : MediaEntity :=
  { id := id
    originalName := dto.fileName
    mimeType := dto.mimeType
    size := dto.size
    status := MediaStatus.pending
    key := ""
    bucket := ""
    createdAt := some now
    updatedAt := some now }

/-- `MediaMapper.toMediaEntityFromStorage` (`media/mappers/media.mapper.ts`):
rebuilds the entity from storage metadata. It sets `updatedAt` to the current
time and does NOT set `createdAt` (the field is absent in the returned
object). -/
def toMediaEntityFromStorage (metadata : StorageFileMetadata) (now : ℕ) : MediaEntity :=
  { id := metadata.id
    originalName := metadata.originalName
    mimeType := metadata.mimeType
    size := metadata.size
    status := metadata.status
    key := metadata.key
    bucket := metadata.bucket
    uploadedAt := metadata.uploadedAt
    createdAt := none
    updatedAt := some now }

end MediaMapper

namespace StorageMapper

/-- `StorageMapper.toStorageMetadata` (`media/mappers/storage.mapper.ts`). -/
def toStorageMetadata (dto : UploadRequestDto) (id : String) : StorageFileMetadata :=
  { id := id
    originalName := dto.fileName
    mimeType := dto.mimeType
    size := dto.size
    key := ""
    bucket := ""
    status := MediaStatus.pending }

/-- `StorageMapper.toUploadResponseDto` (`media/mappers/storage.mapper.ts`). -/
def toUploadResponseDto (response : StorageUploadResponse) : UploadResponseDto :=
  { uploadId := response.uploadId
    url := response.url
    expires := response.expires }

/-- `StorageMapper.toFileMetadataDto` (`media/mappers/storage.mapper.ts`),
applied by the service to a `MediaEntity` (TypeScript structural typing). -/
def toFileMetadataDto (entity : MediaEntity) (url : Option String) : FileMetadataDto :=
  { id := entity.id
    originalName := entity.originalName
    mimeType := entity.mimeType
    size := entity.size
    status := entity.status
    uploadedAt := entity.uploadedAt
    url := url }

end StorageMapper

namespace MediaRepository

/-- `MediaRepository.save` (mongodb media repository): back-fills `createdAt`
with the current time when the entity carries none, always refreshes
`updatedAt`, and upserts the resulting document (every field is `$set`,
overwriting the stored record). The entity object itself is mutated, so the
caller continues with the returned value. -/
def save (entity : MediaEntity) (now : ℕ) : MediaEntity :=
  { entity with
      createdAt := some (entity.createdAt.getD now)
      updatedAt := some now }

end MediaRepository

namespace Service

/-- The service's configured upload policy (`config.upload`). -/
structure Config where
  allowedMimeTypes : List String
  maxFileSize : ℚ
deriving DecidableEq, Repr

/-- One observable side effect of an engine operation, recorded in call
order: a repository persist, or a storage-collaborator call. -/
inductive Event
  | saveRecord (entity : MediaEntity)
  | getUploadUrl (metadata : StorageFileMetadata)
  | verifyUpload (id : String)
  | getStorageMetadata (id : String)
  | validateContent (id : String) (mimeType : String)
  | getDownloadUrl (id : String)
  | deleteStorageObject (id : String)
  | deleteDbRecord (id : String)
deriving DecidableEq, Repr

/-- The outcomes the storage collaborator would produce for each of its
operations during one engine call (the engine performs each call at most
once). An `Except.error` is a thrown `StorageError`. -/
structure StorageBehavior where
  verifyUpload : Except StorageFailure Bool
  getMetadata : Except StorageFailure StorageFileMetadata
  validateFileContent : Except StorageFailure Bool
  getDownloadUrl : Except StorageFailure String
  getUploadUrl : Except StorageFailure StorageUploadResponse
  deleteFile : Except StorageFailure Bool
deriving DecidableEq, Repr

/-- `MediaService.validateUploadRequest`: the declared MIME type must be a
member of the allow-list and the declared size must not exceed the configured
maximum; each violation throws a `ValidationError`. -/
def validateUploadRequest (cfg : Config) (request : UploadRequestDto) :
    Except AppError Unit :=
  if ¬ cfg.allowedMimeTypes.contains request.mimeType then
    Except.error (AppError.validationError "Invalid mime type")
  else if request.size > cfg.maxFileSize then
    Except.error (AppError.validationError "File size exceeds maximum allowed size")
  else
    Except.ok ()

/-- `MediaService.validateUploadedFile`: the declared/actual size-consistency
check. `sizeDifference = |declared - actual|`, `sizeTolerance = declared *
0.1`; a `ValidationError` is thrown only when the difference exceeds both the
relative tolerance and 1024 bytes. The MIME comparison below it only logs a
warning and never throws. -/
def validateUploadedFile (original : MediaEntity) (uploaded : StorageFileMetadata) :
    Except AppError Unit :=
  let sizeDifference := |original.size - uploaded.size|
  let sizeTolerance := original.size * (1 / 10)
  if sizeDifference > sizeTolerance ∧ sizeDifference > 1024 then
    Except.error (AppError.validationError "File size mismatch")
  else
    Except.ok ()

/-- `MediaService.initiateUpload`: validate the request, persist a fresh
`pending` entity, then ask storage for a presigned upload URL (a failure
there is wrapped as a `StorageError`; the record stays persisted). `fileId`
stands for the generated `randomUUID()`, `now` for the current time. -/
def initiateUpload (cfg : Config) (sb : StorageBehavior) (fileId : String)
    (now : ℕ) (request : UploadRequestDto) :
    Except AppError UploadResponseDto × List Event :=
  match validateUploadRequest cfg request with
  | Except.error e => (Except.error e, [])
  | Except.ok _ =>
    let storageMetadata := StorageMapper.toStorageMetadata request fileId
    let mediaEntity := MediaMapper.toMediaEntity request fileId now
    let saved := MediaRepository.save mediaEntity now
    let events := [Event.saveRecord saved, Event.getUploadUrl storageMetadata]
    match sb.getUploadUrl with
    | Except.ok resp => (Except.ok (StorageMapper.toUploadResponseDto resp), events)
    | Except.error _ =>
      (Except.error (AppError.storageError "Failed to initiate upload"), events)

/-- `MediaService.completeUpload`: look up the record, verify the object
exists in storage, fetch its actual metadata, run the size-consistency check,
persist the merged entity as `uploaded`, run content validation (an exception
there is caught and counts as invalid content), persist the final
`validated`/`invalid` status, and best-effort mint a download URL for
validated files. `now1`/`now2` are the times of the two persists. -/
def completeUpload (sb : StorageBehavior) (findResult : Option MediaEntity)
    (uploadId : String) (now1 now2 : ℕ) :
    Except AppError FileMetadataDto × List Event :=
  match findResult with
  | none => (Except.error (AppError.notFoundError "Upload not found in database"), [])
  | some originalEntity =>
    match sb.verifyUpload with
    | Except.error _ =>
      (Except.error (AppError.storageError "Failed to verify upload"),
        [Event.verifyUpload uploadId])
    | Except.ok false =>
      (Except.error (AppError.notFoundError "Upload not found in storage"),
        [Event.verifyUpload uploadId])
    | Except.ok true =>
      match sb.getMetadata with
      | Except.error _ =>
        (Except.error (AppError.storageError "Failed to get file metadata"),
          [Event.verifyUpload uploadId, Event.getStorageMetadata uploadId])
      | Except.ok storageMetadata =>
        match validateUploadedFile originalEntity storageMetadata with
        | Except.error e =>
          (Except.error e, [Event.verifyUpload uploadId, Event.getStorageMetadata uploadId])
        | Except.ok _ =>
          let mediaEntity :=
            { MediaMapper.toMediaEntityFromStorage storageMetadata now1 with
                originalName := originalEntity.originalName
                status := MediaStatus.uploaded }
          let saved1 := MediaRepository.save mediaEntity now1
          let isContentValid :=
            match sb.validateFileContent with
            | Except.ok b => b
            | Except.error _ => false
          let saved2 := MediaRepository.save
            { saved1 with
                status := if isContentValid then MediaStatus.validated else MediaStatus.invalid }
            now2
          let downloadUrl : Option String :=
            if saved2.status = MediaStatus.validated then
              match sb.getDownloadUrl with
              | Except.ok u => some u
              | Except.error _ => none
            else none
          (Except.ok (StorageMapper.toFileMetadataDto saved2 downloadUrl),
            [Event.verifyUpload uploadId, Event.getStorageMetadata uploadId,
              Event.saveRecord saved1,
              Event.validateContent uploadId originalEntity.mimeType,
              Event.saveRecord saved2]
              ++ (if saved2.status = MediaStatus.validated then
                    [Event.getDownloadUrl uploadId]
                  else []))

/-- `MediaService.deleteFile`: attempt storage deletion (a thrown
`StorageError` is logged and swallowed, leaving `storageDeleted = false`),
then attempt the metadata deletion (`dbResult`; a thrown `DatabaseError`
propagates), and return the conjunction. -/
def deleteFile (sb : StorageBehavior) (dbResult : Except DbFailure Bool)
    (fileId : String) : Except AppError Bool × List Event :=
  let storageDeleted :=
    match sb.deleteFile with
    | Except.ok b => b
    | Except.error _ => false
  let events := [Event.deleteStorageObject fileId, Event.deleteDbRecord fileId]
  match dbResult with
  | Except.error _ => (Except.error (AppError.databaseError "Failed to delete entity"), events)
  | Except.ok dbDeleted => (Except.ok (storageDeleted && dbDeleted), events)

/-- `MediaService.updateFile`: validate the request, require the record to
exist, best-effort delete the previous stored object (failure logged,
non-fatal), persist a fresh `pending` entity with the new declared
attributes, and issue a new upload credential as in `initiateUpload`. -/
def updateFile (cfg : Config) (sb : StorageBehavior)
    (findResult : Option MediaEntity) (fileId : String) (now : ℕ)
    (request : UploadRequestDto) :
    Except AppError UploadResponseDto × List Event :=
  match validateUploadRequest cfg request with
  | Except.error e => (Except.error e, [])
  | Except.ok _ =>
    match findResult with
    | none => (Except.error (AppError.notFoundError "File not found"), [])
    | some _ =>
      let storageMetadata := StorageMapper.toStorageMetadata request fileId
      let mediaEntity :=
        { MediaMapper.toMediaEntity request fileId now with status := MediaStatus.pending }
      let saved := MediaRepository.save mediaEntity now
      let events := [Event.deleteStorageObject fileId, Event.saveRecord saved,
        Event.getUploadUrl storageMetadata]
      match sb.getUploadUrl with
      | Except.ok resp => (Except.ok (StorageMapper.toUploadResponseDto resp), events)
      | Except.error _ =>
        (Except.error (AppError.storageError "Failed to initiate file update"), events)

/-- The statuses persisted by a trace of events, in persist order. -/
def persistedStatuses (events : List Event) : List MediaStatus :=
  events.filterMap (fun e =>
    match e with
    | Event.saveRecord r => some r.status
    | _ => none)

/-- The `createdAt` values persisted by a trace of events, in persist order. -/
def persistedCreatedAts (events : List Event) : List (Option ℕ) :=
  events.filterMap (fun e =>
    match e with
    | Event.saveRecord r => some r.createdAt
    | _ => none)

/-- A metadata record with the given declared size (used to instantiate the
tolerance law at concrete sizes). -/
def declaredEntity (size : ℚ) : MediaEntity :=
  { id := "file-1"
    originalName := "photo.png"
    mimeType := "image/png"
    size := size
    status := MediaStatus.pending
    key := ""
    bucket := "" }

/-- Storage-reported metadata with the given actual size. -/
def actualMetadata (size : ℚ) : StorageFileMetadata :=
  { id := "file-1"
    originalName := "photo.png"
    mimeType := "image/png"
    size := size
    key := "uploads/file-1/photo.png"
    bucket := "media"
    status := MediaStatus.uploaded }

/-- C1: the size-consistency check of `completeUpload` raises a validation
error exactly when the absolute declared/actual difference exceeds both the
10% relative tolerance and 1024 bytes; declared 100000 with actual 89000
fails, declared 1000 with actual 1200 passes. -/
theorem validateUploadedFile_tolerance :
    (∀ (original : MediaEntity) (uploaded : StorageFileMetadata),
      (∃ msg, validateUploadedFile original uploaded
          = Except.error (AppError.validationError msg))
        ↔ |original.size - uploaded.size| > original.size * (1 / 10)
            ∧ |original.size - uploaded.size| > 1024)
    ∧ (∃ msg, validateUploadedFile (declaredEntity 100000) (actualMetadata 89000)
        = Except.error (AppError.validationError msg))
    ∧ validateUploadedFile (declaredEntity 1000) (actualMetadata 1200)
        = Except.ok () := by
  have hiff : ∀ (original : MediaEntity) (uploaded : StorageFileMetadata),
      (∃ msg, validateUploadedFile original uploaded
          = Except.error (AppError.validationError msg))
        ↔ |original.size - uploaded.size| > original.size * (1 / 10)
            ∧ |original.size - uploaded.size| > 1024 := by
    intro original uploaded
    simp only [validateUploadedFile]
    split
    · next h => exact iff_of_true ⟨_, rfl⟩ h
    · next h =>
      refine iff_of_false ?_ h
      rintro ⟨msg, hmsg⟩
      exact Except.noConfusion hmsg
  refine ⟨hiff, ?_, ?_⟩
  · refine (hiff (declaredEntity 100000) (actualMetadata 89000)).mpr ?_
    norm_num [declaredEntity, actualMetadata]
  · simp only [validateUploadedFile]
    rw [if_neg]
    norm_num [declaredEntity, actualMetadata]

/-- C10: the shared upload-request validation has no lower bound and no
integrality requirement on the declared size: any request with an allow-listed
MIME type and a declared size not exceeding the configured maximum passes,
zero and negative sizes included. -/
theorem validateUploadRequest_no_lower_bound (cfg : Config) (request : UploadRequestDto)
    (hmime : request.mimeType ∈ cfg.allowedMimeTypes)
    (hsize : request.size ≤ cfg.maxFileSize) :
    validateUploadRequest cfg request = Except.ok () := by
  unfold validateUploadRequest
  rw [if_neg (not_not_intro (List.elem_iff.mpr hmime)), if_neg (not_lt.mpr hsize)]

/-- C10 witness: a negative declared size (-5 bytes) passes validation when
the MIME type is allow-listed and the maximum is 104857600. -/
theorem validateUploadRequest_no_lower_bound_witness :
    validateUploadRequest
        { allowedMimeTypes := ["image/png", "image/jpeg"], maxFileSize := 104857600 }
        { fileName := "a.png", mimeType := "image/png", size := -5 }
      = Except.ok () :=
  validateUploadRequest_no_lower_bound _ _ (by decide) (by norm_num)

/-- C6: `deleteFile` returns true exactly when the storage deletion and the
metadata deletion both succeed; a thrown storage deletion is swallowed (the
metadata deletion is still attempted, the call is not aborted) and forces the
overall result to false even when the metadata record was removed. -/
theorem deleteFile_requires_both (sb : StorageBehavior)
    (dbResult : Except DbFailure Bool) (fileId : String) :
    ((deleteFile sb dbResult fileId).1 = Except.ok true ↔
      sb.deleteFile = Except.ok true ∧ dbResult = Except.ok true)
    ∧ (∀ msg, sb.deleteFile = Except.error msg →
        (deleteFile sb dbResult fileId).2
            = [Event.deleteStorageObject fileId, Event.deleteDbRecord fileId]
          ∧ ∀ b, dbResult = Except.ok b →
              (deleteFile sb dbResult fileId).1 = Except.ok false) := by
  unfold deleteFile
  rcases hs : sb.deleteFile with msg | sdel <;>
    rcases hd : dbResult with msg2 | ddel <;>
      simp

/-- C3: `initiateUpload` fails with a validation error and performs no side
effect (no persist, no storage call) whenever the declared MIME type is not
allow-listed or the declared size exceeds the maximum; and on every successful
call the event trace is exactly a persist of a `pending` record followed by
the upload-credential request. -/
theorem initiateUpload_guard_and_order (cfg : Config) (sb : StorageBehavior)
    (fileId : String) (now : ℕ) (request : UploadRequestDto) :
    ((request.mimeType ∉ cfg.allowedMimeTypes ∨ cfg.maxFileSize < request.size) →
      (∃ msg, (initiateUpload cfg sb fileId now request).1
          = Except.error (AppError.validationError msg))
      ∧ (initiateUpload cfg sb fileId now request).2 = [])
    ∧ (∀ resp, (initiateUpload cfg sb fileId now request).1 = Except.ok resp →
        ∃ entity metadata,
          (initiateUpload cfg sb fileId now request).2
            = [Event.saveRecord entity, Event.getUploadUrl metadata]
          ∧ entity.status = MediaStatus.pending) := by
  constructor
  · intro hbad
    have hval : ∃ msg, validateUploadRequest cfg request
        = Except.error (AppError.validationError msg) := by
      unfold validateUploadRequest
      rcases hbad with hmime | hsize
      · rw [if_pos (fun hc => hmime (List.elem_iff.mp hc))]
        exact ⟨_, rfl⟩
      · by_cases hmem : (¬ cfg.allowedMimeTypes.contains request.mimeType)
        · rw [if_pos hmem]; exact ⟨_, rfl⟩
        · rw [if_neg hmem, if_pos hsize]; exact ⟨_, rfl⟩
    obtain ⟨msg, hval⟩ := hval
    unfold initiateUpload
    rw [hval]
    exact ⟨⟨msg, rfl⟩, rfl⟩
  · intro resp hok
    unfold initiateUpload at hok ⊢
    rcases hv : validateUploadRequest cfg request with e | u
    · simp only [hv] at hok
      exact Except.noConfusion hok
    · rcases hu : sb.getUploadUrl with e2 | resp2 <;>
        exact ⟨_, _, rfl, rfl⟩

/-- A storage behavior under which the stored object exists (`verifyUpload`
reports true) and its metadata is readable, while content validation, the
download-URL mint and the remaining calls behave as given. -/
def completionBehavior (meta : StorageFileMetadata)
    (vres : Except StorageFailure Bool) (gres : Except StorageFailure String)
    (ures : Except StorageFailure StorageUploadResponse)
    (dres : Except StorageFailure Bool) : StorageBehavior :=
  { verifyUpload := Except.ok true
    getMetadata := Except.ok meta
    validateFileContent := vres
    getDownloadUrl := gres
    getUploadUrl := ures
    deleteFile := dres }

/-- C2: once `completeUpload` reaches the point where the record and the
stored object exist and the size check passed, the trace persists an
`uploaded` record and then, unconditionally, a final record whose status is
`validated` exactly when content validation returned true, and `invalid` both
on a reported mismatch and on a thrown sampling failure; the call returns a
successful result carrying that final status rather than an error. -/
theorem completeUpload_final_status (orig : MediaEntity) (meta : StorageFileMetadata)
    (vres : Except StorageFailure Bool) (gres : Except StorageFailure String)
    (ures : Except StorageFailure StorageUploadResponse)
    (dres : Except StorageFailure Bool) (uploadId : String) (now1 now2 : ℕ)
    (hsize : validateUploadedFile orig meta = Except.ok ()) :
    (∃ e1 e2 rest,
      (completeUpload (completionBehavior meta vres gres ures dres)
          (some orig) uploadId now1 now2).2
        = [Event.verifyUpload uploadId, Event.getStorageMetadata uploadId,
            Event.saveRecord e1, Event.validateContent uploadId orig.mimeType,
            Event.saveRecord e2] ++ rest
      ∧ e1.status = MediaStatus.uploaded
      ∧ e2.status
          = (if vres = Except.ok true then MediaStatus.validated else MediaStatus.invalid))
    ∧ (∃ dto,
      (completeUpload (completionBehavior meta vres gres ures dres)
          (some orig) uploadId now1 now2).1 = Except.ok dto
      ∧ dto.status
          = (if vres = Except.ok true then MediaStatus.validated else MediaStatus.invalid)) := by
  unfold completeUpload
  simp only [completionBehavior, hsize]
  rcases vres with e | b
  · exact ⟨⟨_, _, _, rfl, rfl, rfl⟩, ⟨_, rfl, rfl⟩⟩
  · cases b <;> exact ⟨⟨_, _, _, rfl, rfl, rfl⟩, ⟨_, rfl, rfl⟩⟩

/-- C2 witness: a concrete completion in which sampling the stored bytes
throws (`validateFileContent` errors): the engine still persists a final
status — `invalid` — and returns it as a successful result. -/
theorem completeUpload_final_status_witness :
    (∃ e1 e2 rest,
      (completeUpload (completionBehavior (actualMetadata 1000) (Except.error "io")
          (Except.error "e1") (Except.error "e2") (Except.ok true))
          (some (declaredEntity 1000)) "file-1" 1 2).2
        = [Event.verifyUpload "file-1", Event.getStorageMetadata "file-1",
            Event.saveRecord e1, Event.validateContent "file-1" (declaredEntity 1000).mimeType,
            Event.saveRecord e2] ++ rest
      ∧ e1.status = MediaStatus.uploaded
      ∧ e2.status = (if (Except.error "io" : Except StorageFailure Bool) = Except.ok true
          then MediaStatus.validated else MediaStatus.invalid))
    ∧ (∃ dto,
      (completeUpload (completionBehavior (actualMetadata 1000) (Except.error "io")
          (Except.error "e1") (Except.error "e2") (Except.ok true))
          (some (declaredEntity 1000)) "file-1" 1 2).1 = Except.ok dto
      ∧ dto.status = (if (Except.error "io" : Except StorageFailure Bool) = Except.ok true
          then MediaStatus.validated else MediaStatus.invalid)) :=
  completeUpload_final_status (declaredEntity 1000) (actualMetadata 1000)
    (Except.error "io") (Except.error "e1") (Except.error "e2") (Except.ok true)
    "file-1" 1 2
    (by
      simp only [validateUploadedFile]
      rw [if_neg]
      norm_num [declaredEntity, actualMetadata])

/-- The statuses persisted by `initiateUpload`: nothing when validation
rejects the request, and exactly one `pending` persist otherwise (whether or
not the credential request then succeeds). -/
theorem initiateUpload_persistedStatuses (cfg : Config) (sb : StorageBehavior)
    (fileId : String) (now : ℕ) (request : UploadRequestDto) :
    persistedStatuses (initiateUpload cfg sb fileId now request).2 = []
      ∨ persistedStatuses (initiateUpload cfg sb fileId now request).2
          = [MediaStatus.pending] := by
  unfold initiateUpload
  rcases hv : validateUploadRequest cfg request with e | u
  · exact Or.inl rfl
  · rcases hu : sb.getUploadUrl with e2 | resp <;> exact Or.inr rfl

/-- The statuses persisted by `updateFile`: nothing on a rejected request or a
missing record, and exactly one `pending` persist otherwise. -/
theorem updateFile_persistedStatuses (cfg : Config) (sb : StorageBehavior)
    (findResult : Option MediaEntity) (fileId : String) (now : ℕ)
    (request : UploadRequestDto) :
    persistedStatuses (updateFile cfg sb findResult fileId now request).2 = []
      ∨ persistedStatuses (updateFile cfg sb findResult fileId now request).2
          = [MediaStatus.pending] := by
  unfold updateFile
  rcases hv : validateUploadRequest cfg request with e | u
  · exact Or.inl rfl
  · rcases findResult with _ | orig
    · exact Or.inl rfl
    · rcases hu : sb.getUploadUrl with e2 | resp <;> exact Or.inr rfl

/-- The statuses persisted by `completeUpload`: nothing when an early check
fails, and otherwise exactly `uploaded` followed by `validated` or
`invalid`. -/
theorem completeUpload_persistedStatuses (sb : StorageBehavior)
    (findResult : Option MediaEntity) (uploadId : String) (now1 now2 : ℕ) :
    persistedStatuses (completeUpload sb findResult uploadId now1 now2).2 = []
      ∨ persistedStatuses (completeUpload sb findResult uploadId now1 now2).2
          = [MediaStatus.uploaded, MediaStatus.validated]
      ∨ persistedStatuses (completeUpload sb findResult uploadId now1 now2).2
          = [MediaStatus.uploaded, MediaStatus.invalid] := by
  unfold completeUpload
  rcases findResult with _ | orig
  · exact Or.inl rfl
  rcases hv : sb.verifyUpload with e | b
  · simp [hv, persistedStatuses]
  cases b
  · simp [hv, persistedStatuses]
  rcases hm : sb.getMetadata with e | meta
  · simp [hv, hm, persistedStatuses]
  rcases hval : validateUploadedFile orig meta with e | u
  · simp [hv, hm, hval, persistedStatuses]
  rcases hc : sb.validateFileContent with e | b2
  · simp [hv, hm, hval, hc, persistedStatuses, MediaRepository.save]
  cases b2
  · simp [hv, hm, hval, hc, persistedStatuses, MediaRepository.save]
  · simp [hv, hm, hval, hc, persistedStatuses, MediaRepository.save]

/-- C8: status discipline of the engine. `initiateUpload` and `updateFile`
persist only `pending`; `completeUpload` persists `uploaded` followed by
exactly one of `validated`/`invalid`; no operation, under any collaborator
behavior, ever persists `failed`. -/
theorem engine_status_machine (cfg : Config) (sb : StorageBehavior)
    (findU findC : Option MediaEntity) (request : UploadRequestDto)
    (fileId uploadId : String) (now now1 now2 : ℕ) :
    (persistedStatuses (initiateUpload cfg sb fileId now request).2 = []
      ∨ persistedStatuses (initiateUpload cfg sb fileId now request).2
          = [MediaStatus.pending])
    ∧ (persistedStatuses (updateFile cfg sb findU fileId now request).2 = []
      ∨ persistedStatuses (updateFile cfg sb findU fileId now request).2
          = [MediaStatus.pending])
    ∧ (persistedStatuses (completeUpload sb findC uploadId now1 now2).2 = []
      ∨ persistedStatuses (completeUpload sb findC uploadId now1 now2).2
          = [MediaStatus.uploaded, MediaStatus.validated]
      ∨ persistedStatuses (completeUpload sb findC uploadId now1 now2).2
          = [MediaStatus.uploaded, MediaStatus.invalid])
    ∧ MediaStatus.failed ∉ persistedStatuses (initiateUpload cfg sb fileId now request).2
    ∧ MediaStatus.failed ∉ persistedStatuses (updateFile cfg sb findU fileId now request).2
    ∧ MediaStatus.failed ∉ persistedStatuses (completeUpload sb findC uploadId now1 now2).2 := by
  refine ⟨initiateUpload_persistedStatuses cfg sb fileId now request,
    updateFile_persistedStatuses cfg sb findU fileId now request,
    completeUpload_persistedStatuses sb findC uploadId now1 now2, ?_, ?_, ?_⟩
  · rcases initiateUpload_persistedStatuses cfg sb fileId now request with h | h <;>
      simp [h]
  · rcases updateFile_persistedStatuses cfg sb findU fileId now request with h | h <;>
      simp [h]
  · rcases completeUpload_persistedStatuses sb findC uploadId now1 now2 with h | h | h <;>
      simp [h]

/-- The record as `initiateUpload` persists it at time 0: `createdAt = 0`. -/
def recordCreatedAtZero : MediaEntity :=
  MediaRepository.save
    (MediaMapper.toMediaEntity
      { fileName := "photo.png", mimeType := "image/png", size := 1000 } "file-1" 0) 0

/-- C9, evaluated at the failing input: a record created (and persisted) at
time 0 is completed at times 5 and 9. `toMediaEntityFromStorage` rebuilds the
entity without `createdAt`, so `MediaRepository.save` back-fills it with the
first persist's time and its upsert overwrites the stored value: both
`completeUpload` persists write `createdAt = 5`, not the original 0 (while
`updatedAt` is refreshed to 5 and then 9). -/
theorem completeUpload_createdAt_failing_input :
    recordCreatedAtZero.createdAt = some 0
    ∧ persistedCreatedAts (completeUpload
        (completionBehavior (actualMetadata 1000) (Except.ok true) (Except.ok "url")
          (Except.error "e") (Except.ok true))
        (some recordCreatedAtZero) "file-1" 5 9).2 = [some 5, some 5]
    ∧ (persistedCreatedAts (completeUpload
        (completionBehavior (actualMetadata 1000) (Except.ok true) (Except.ok "url")
          (Except.error "e") (Except.ok true))
        (some recordCreatedAtZero) "file-1" 5 9).2).getLast? ≠ some recordCreatedAtZero.createdAt := by
  have hval : validateUploadedFile recordCreatedAtZero (actualMetadata 1000)
      = Except.ok () := by
    simp only [validateUploadedFile]
    rw [if_neg]
    norm_num [recordCreatedAtZero, MediaRepository.save, MediaMapper.toMediaEntity,
      actualMetadata]
  simp [recordCreatedAtZero, MediaRepository.save, MediaMapper.toMediaEntity,
    actualMetadata] at hval
  refine ⟨rfl, ?_, ?_⟩ <;>
    · unfold completeUpload
      simp [completionBehavior, hval, persistedCreatedAts, MediaRepository.save,
        MediaMapper.toMediaEntityFromStorage, recordCreatedAtZero,
        MediaMapper.toMediaEntity, actualMetadata]

/-- The pagination and sorting fields of `MediaFilter`
(`common/types/media.types`), as `MediaController.searchFiles` populates them
(the query-predicate fields — status, MIME, name, dates, sizes — do not enter
the pagination computation and are omitted here). -/
structure MediaFilter where
  page : Option ℤ := none
  limit : Option ℤ := none
  sortBy : Option String := none
  sortOrder : Option String := none
deriving DecidableEq, Repr

/-- JavaScript `x || d` on an optional number: the default replaces an absent
value and also 0, which is falsy. -/
def jsOr (o : Option ℤ) (d : ℤ) : ℤ :=
  match o with
  | some v => if v = 0 then d else v
  | none => d

/-- JavaScript `s || d` on an optional string: the default replaces an absent
value and the empty string. -/
def jsOrStr (o : Option String) (d : String) : String :=
  match o with
  | some s => if s = "" then d else s
  | none => d

/-- The pagination-relevant part of `MediaController.searchFiles`'s query
parsing: `page` is kept only when positive (absent defaults to 1; a
non-positive value is dropped and re-defaulted by the service), `limit` only
when positive and clamped to at most 100 (absent defaults to 20), `sortBy`
defaults to `createdAt`, and `sortOrder` is kept only when `asc` or `desc`
(anything else becomes `desc`). -/
def buildSearchFilter (pageParam limitParam : Option ℤ)
    (sortByParam sortOrderParam : Option String) : MediaFilter :=
  { page :=
      match pageParam with
      | some p => if 0 < p then some p else none
      | none => some 1
    limit :=
      match limitParam with
      | some l => if 0 < l then some (min l 100) else none
      | none => some 20
    sortBy := some (sortByParam.getD "createdAt")
    sortOrder :=
      match sortOrderParam with
      | some s => if s = "asc" ∨ s = "desc" then some s else some "desc"
      | none => some "desc" }

/-- The pagination/sort outputs of one `searchFiles` call. -/
structure SearchComputation where
  limit : ℤ
  currentPage : ℤ
  skip : ℤ
  sortField : String
  sortDirection : ℤ
  totalItems : ℕ
  totalPages : ℤ
  hasNextPage : Bool
  hasPreviousPage : Bool
deriving DecidableEq, Repr

/-- The pagination and sorting computation of `MediaService.searchFiles`,
given the repository's `count` result: `limit = filter.limit || 20`,
`page = filter.page || 1`, `skip = (page - 1) * limit`,
`totalPages = Math.ceil(totalItems / limit)`, `hasNextPage = page <
totalPages`, `hasPreviousPage = page > 1`. -/
def searchFilesCompute (filter : MediaFilter) (totalItems : ℕ) : SearchComputation :=
  let limit := jsOr filter.limit 20
  let page := jsOr filter.page 1
  let skip := (page - 1) * limit
  let sortField := jsOrStr filter.sortBy "createdAt"
  let sortDirection : ℤ := if filter.sortOrder = some "asc" then 1 else -1
  let totalPages : ℤ := ⌈(totalItems : ℚ) / (limit : ℚ)⌉
  { limit := limit
    currentPage := page
    skip := skip
    sortField := sortField
    sortDirection := sortDirection
    totalItems := totalItems
    totalPages := totalPages
    hasNextPage := decide (page < totalPages)
    hasPreviousPage := decide (page > 1) }

/-- The search pipeline as the HTTP route executes it: the controller's
parameter handling followed by the service's pagination computation. -/
def searchOutcome (pageParam limitParam : Option ℤ)
    (sortByParam sortOrderParam : Option String) (totalItems : ℕ) : SearchComputation :=
  searchFilesCompute
    (buildSearchFilter pageParam limitParam sortByParam sortOrderParam) totalItems

/-- C7: through the controller's parameter handling and the service's
computation, `skip = (page - 1) * limit`, `totalPages =
ceil(totalItems / limit)`, `hasNextPage = page < totalPages`,
`hasPreviousPage = page > 1`; the defaults are page 1, limit 20, sort by
`createdAt` descending; a requested limit above 100 is clamped to 100; and 25
items with limit 10, page 2 give totalPages 3 with both neighbour pages
available. -/
theorem searchFiles_pagination (pageParam limitParam : Option ℤ)
    (sortByParam sortOrderParam : Option String) (totalItems : ℕ) :
    ((searchOutcome pageParam limitParam sortByParam sortOrderParam totalItems).skip
        = ((searchOutcome pageParam limitParam sortByParam sortOrderParam totalItems).currentPage - 1)
            * (searchOutcome pageParam limitParam sortByParam sortOrderParam totalItems).limit
    ∧ (searchOutcome pageParam limitParam sortByParam sortOrderParam totalItems).totalPages
        = ⌈(totalItems : ℚ)
            / ((searchOutcome pageParam limitParam sortByParam sortOrderParam totalItems).limit : ℚ)⌉
    ∧ ((searchOutcome pageParam limitParam sortByParam sortOrderParam totalItems).hasNextPage = true
        ↔ (searchOutcome pageParam limitParam sortByParam sortOrderParam totalItems).currentPage
            < (searchOutcome pageParam limitParam sortByParam sortOrderParam totalItems).totalPages)
    ∧ ((searchOutcome pageParam limitParam sortByParam sortOrderParam totalItems).hasPreviousPage = true
        ↔ 1 < (searchOutcome pageParam limitParam sortByParam sortOrderParam totalItems).currentPage))
    ∧ (pageParam = none →
        (searchOutcome pageParam limitParam sortByParam sortOrderParam totalItems).currentPage = 1)
    ∧ (limitParam = none →
        (searchOutcome pageParam limitParam sortByParam sortOrderParam totalItems).limit = 20)
    ∧ (sortByParam = none →
        (searchOutcome pageParam limitParam sortByParam sortOrderParam totalItems).sortField
          = "createdAt")
    ∧ (sortOrderParam = none →
        (searchOutcome pageParam limitParam sortByParam sortOrderParam totalItems).sortDirection = -1
        ∧ (buildSearchFilter pageParam limitParam sortByParam sortOrderParam).sortOrder
            = some "desc")
    ∧ (∀ l, limitParam = some l → 100 < l →
        (searchOutcome pageParam limitParam sortByParam sortOrderParam totalItems).limit = 100)
    ∧ ((searchOutcome (some 2) (some 10) none none 25).totalPages = 3
      ∧ (searchOutcome (some 2) (some 10) none none 25).hasNextPage = true
      ∧ (searchOutcome (some 2) (some 10) none none 25).hasPreviousPage = true) := by
  simp only [searchOutcome]
  have hceil : (⌈(25 : ℚ) / (10 : ℚ)⌉ : ℤ) = 3 := by
    rw [show ((25 : ℚ) / (10 : ℚ)) = 5 / 2 by norm_num]
    rw [show (3 : ℤ) = 2 + 1 by norm_num]
    rw [Int.ceil_eq_iff]
    norm_num
  refine ⟨⟨rfl, rfl, ?_, ?_⟩, ?_, ?_, ?_, ?_, ?_, ?_, ?_, ?_⟩
  · exact decide_eq_true_iff
  · exact decide_eq_true_iff
  · intro h
    simp [h, buildSearchFilter, searchFilesCompute, jsOr]
  · intro h
    simp [h, buildSearchFilter, searchFilesCompute, jsOr]
  · intro h
    simp [h, buildSearchFilter, searchFilesCompute, jsOrStr]
  · intro h
    simp [h, buildSearchFilter, searchFilesCompute]
  · intro l hl hgt
    have hpos : (0 : ℤ) < l := by omega
    have hmin : min l 100 = 100 := min_eq_right (by omega)
    simp [hl, buildSearchFilter, searchFilesCompute, jsOr, hpos, hmin]
  · simp [buildSearchFilter, searchFilesCompute, jsOr, hceil]
  · simp [buildSearchFilter, searchFilesCompute, jsOr, hceil]
  · simp [buildSearchFilter, searchFilesCompute, jsOr]

end Service

end MediaSpec
